import Mathlib

/-
Verification development for the SST core Factory (factory.cc).
Each definition is a shallow embedding of a function or data structure of
src/sst/core/factory.cc; comments cite the embedded source lines.
C strings are modelled as the list of characters before the NUL
terminator; a cursor standing on the terminator is the empty list.
-/

set_option maxHeartbeats 1000000

namespace SST

/-- NUL character, the value of dereferencing a C string cursor at its end. -/
def nulChar : Char := Char.ofNat 0

/-- Dereference a C string cursor: the head character, or NUL at the end. -/
def headC (l : List Char) : Char := l.headD nulChar

/-- Embeds the loop in checkPort (factory.cc lines 82 to 84):
while the cursor is not at the terminator and not on a closing
parenthesis, advance.  The result either starts with the closing
parenthesis or is empty (the cursor reached the terminator). -/
def skipToParen : List Char → List Char
  | [] => []
  | c :: rest => if c = ')' then c :: rest else skipToParen rest

/-- Embeds checkPort line 90: advance the candidate cursor over the
consecutive decimal digits at its position. -/
def eatDigits : List Char → List Char
  | [] => []
  | c :: rest => if c.isDigit then eatDigits rest else c :: rest

/-- Embeds the guard of checkPort line 79: the pattern cursor stands on
a percent sign followed by an opening parenthesis or the letter d. -/
def isMarkerStart (x : List Char) : Bool :=
  match x with
  | '%' :: x1 => headC x1 = '(' || headC x1 = 'd'
  | _ => false

/-- Embeds checkPort lines 81 to 88, the pattern cursor already past the
percent sign.  Result none: the code increments the cursor past the NUL
terminator and reads out of bounds (unterminated parenthesized name).
Result some none: the marker does not terminate in the letter d, the
code returns false.  Result some (some x3): the cursor after the
complete marker. -/
def eatMarker (x : List Char) : Option (Option (List Char)) :=
  match x with
  | '(' :: _ =>
    match skipToParen x with
    | [] => none
    | _ :: x2 =>
      match x2 with
      | 'd' :: x3 => some (some x3)
      | _ => some none
  | 'd' :: x3 => some (some x3)
  | _ => some none

/-- One placeholder step of the checkPort loop body (lines 79 to 91):
if the pattern cursor stands on a placeholder marker, eat the marker and
the corresponding digits of the candidate.  Result none: out of bounds
read; some none: return false; some (some (x, y)): the cursors after
the step. -/
def pstep (x y : List Char) : Option (Option (List Char × List Char)) :=
  if isMarkerStart x then
    match eatMarker x.tail with
    | none => none
    | some none => some none
    | some (some x2) => some (some (x2, eatDigits y))
  else some (some (x, y))

/-- Fuel bounded embedding of the do while loop of checkPort (lines 78
to 98).  Each iteration runs the placeholder step, then the literal
comparison of line 92, the end of string test of line 93, the cursor
advances of lines 94 and 95, the loop condition of line 96 and the
final comparison of line 97.  Every iteration that recurses strictly
shortens the candidate, so fuel larger than the candidate length is
never exhausted; checkPort supplies such fuel.  Result none marks an
out of bounds read by the C code. -/
def checkPortLoopF : Nat → List Char → List Char → Option Bool
  | 0, _, _ => some false
  | Nat.succ n, x, y =>
    match pstep x y with
    | none => none
    | some none => some false
    | some (some (x1, y1)) =>
      if headC x1 = headC y1 then
        if x1 = [] then some true
        else if x1.tail = [] ∨ y1.tail = [] then
          if headC x1.tail = headC y1.tail then some true else some false
        else checkPortLoopF n x1.tail y1.tail
      else some false

/-- Embeds checkPort (factory.cc lines 70 to 99).  Line 76 is the
special case: the single character pattern star matches everything. -/
def checkPort (defn offered : List Char) : Option Bool :=
  if defn = ['*'] then some true
  else checkPortLoopF (offered.length + 1) defn offered

/-- checkPort on Lean strings. -/
def checkPortS (defn offered : String) : Option Bool :=
  checkPort defn.data offered.data

/-- Embeds find_first_of of a single dot (factory.cc line 624): split
the list at the first dot, or none when there is no dot. -/
def splitAtDot : List Char → Option (List Char × List Char)
  | [] => none
  | c :: rest =>
    if c = '.' then some ([], rest)
    else
      match splitAtDot rest with
      | none => none
      | some (a, b) => some (c :: a, b)

/-- Embeds Factory parseLoadName (factory.cc lines 621 to 636).  The
Bool records whether the non fatal advisory of lines 626 to 629 was
emitted (empty input with no dot). -/
def parseLoadName (w : List Char) : (List Char × List Char) × Bool :=
  match splitAtDot w with
  | none => ((w, w), w.isEmpty)
  | some (a, b) => ((a, b), false)

/-- parseLoadName on Lean strings. -/
def parseLoadNameS (w : String) : (String × String) × Bool :=
  ((String.mk (parseLoadName w.data).1.1, String.mk (parseLoadName w.data).1.2),
    (parseLoadName w.data).2)

/-- One statistic registration: name, enable level and units, as read
from getValidStats entries (factory.cc lines 336 to 338). -/
structure StatInfo where
  name : String
  enableLevel : Nat
  units : String
deriving DecidableEq

/-- The per element descriptor borrowed from the ELI info database:
declared parameter names (getParamNames), port patterns (getPortnames),
statistic names (getStatnames), statistic records (getValidStats) and
sub component slot names (getSubComponentSlots). -/
structure ElemInfo where
  paramNames : List String
  portNames : List String
  statNames : List String
  validStats : List StatInfo
  slotNames : List String
deriving DecidableEq

/-- The external ELI databases queried by the Factory, one info table
and one builder table per capability kind.  A lookup first resolves the
library name (getLibrary, getBuilderLibrary) and then the element name
inside it (getInfo, getBuilder).  Builders are identified by a number
standing for the opaque constructor callable; applying it is modelled
as returning that identifier. -/
structure EliDB where
  compInfo : String → Option (String → Option ElemInfo)
  compBuilder : String → Option (String → Option Nat)
  subInfo : String → Option (String → Option ElemInfo)
  subBuilder : String → Option (String → Option Nat)
  modInfo : String → Option (String → Option ElemInfo)
  modBuilder : String → Option (String → Option Nat)
  modBuilderComp : String → Option (String → Option Nat)
  partInfo : String → Option (String → Option ElemInfo)
  partBuilder : String → Option (String → Option Nat)
  pyInfo : String → Option (String → Option ElemInfo)
  pyBuilder : String → Option (String → Option Nat)

/-- Outcome of a Factory call: a constructed instance, or process
termination through out.fatal. -/
inductive CreateResult (α : Type) where
  | ok (a : α)
  | fatal
deriving DecidableEq

/-- Embeds Factory CreateComponent (factory.cc lines 158 to 197): parse
the type, resolve info library, info, builder library and builder, and
build; any miss falls through to the out.fatal of line 195. -/
def CreateComponent (db : EliDB) (ty : String) : CreateResult Nat :=
  let elemlib := (parseLoadNameS ty).1.1
  let elem := (parseLoadNameS ty).1.2
  match db.compInfo elemlib with
  | some lib =>
    match lib elem with
    | some _info =>
      match db.compBuilder elemlib with
      | some compLib =>
        match compLib elem with
        | some fact => CreateResult.ok fact
        | none => CreateResult.fatal
      | none => CreateResult.fatal
    | none => CreateResult.fatal
  | none => CreateResult.fatal

/-- Embeds Factory CreateModule (factory.cc lines 398 to 434).  The
Bool of the result records whether the parseLoadName advisory was
emitted during the call.  Line 401 makes an empty type fatal before
parseLoadName runs. -/
def CreateModule (db : EliDB) (ty : String) : CreateResult Nat × Bool :=
  if ty = "" then (CreateResult.fatal, false)
  else
    let elemlib := (parseLoadNameS ty).1.1
    let elem := (parseLoadNameS ty).1.2
    let warned := (parseLoadNameS ty).2
    match db.modInfo elemlib with
    | some lib =>
      match lib elem with
      | some _info =>
        match db.modBuilder elemlib with
        | some builderLib =>
          match builderLib elem with
          | some fact => (CreateResult.ok fact, warned)
          | none => (CreateResult.fatal, warned)
        | none => (CreateResult.fatal, warned)
      | none => (CreateResult.fatal, warned)
    | none => (CreateResult.fatal, warned)

/-- Embeds Factory CreateModuleWithComponent (factory.cc lines 436 to
469); the builder table is the Component bound template instantiation. -/
def CreateModuleWithComponent (db : EliDB) (ty : String) : CreateResult Nat :=
  let elemlib := (parseLoadNameS ty).1.1
  let elem := (parseLoadNameS ty).1.2
  match db.modInfo elemlib with
  | some lib =>
    match lib elem with
    | some _info =>
      match db.modBuilderComp elemlib with
      | some builderLib =>
        match builderLib elem with
        | some fact => CreateResult.ok fact
        | none => CreateResult.fatal
      | none => CreateResult.fatal
    | none => CreateResult.fatal
  | none => CreateResult.fatal

/-- Embeds Factory CreateSubComponent (factory.cc lines 471 to 503). -/
def CreateSubComponent (db : EliDB) (ty : String) : CreateResult Nat :=
  let elemlib := (parseLoadNameS ty).1.1
  let elem := (parseLoadNameS ty).1.2
  match db.subInfo elemlib with
  | some lib =>
    match lib elem with
    | some _info =>
      match db.subBuilder elemlib with
      | some builderLib =>
        match builderLib elem with
        | some fact => CreateResult.ok fact
        | none => CreateResult.fatal
      | none => CreateResult.fatal
    | none => CreateResult.fatal
  | none => CreateResult.fatal

/-- Embeds Factory CreatePartitioner (factory.cc lines 517 to 545). -/
def CreatePartitioner (db : EliDB) (name : String) : CreateResult Nat :=
  let elemlib := (parseLoadNameS name).1.1
  let elem := (parseLoadNameS name).1.2
  match db.partInfo elemlib with
  | some lib =>
    match lib elem with
    | some _info =>
      match db.partBuilder elemlib with
      | some builderLib =>
        match builderLib elem with
        | some fact => CreateResult.ok fact
        | none => CreateResult.fatal
      | none => CreateResult.fatal
    | none => CreateResult.fatal
  | none => CreateResult.fatal

/-- Embeds Factory getPythonModule (factory.cc lines 549 to 573).  The
source has no out.fatal call here: every miss reaches the plain return
of line 572 and hands NULL back to the caller, so the result type is an
Option.  Line 563 looks the builder up under the library name. -/
def getPythonModule (db : EliDB) (name : String) : Option Nat :=
  let elemlib := (parseLoadNameS name).1.1
  let elem := (parseLoadNameS name).1.2
  match db.pyInfo elemlib with
  | some lib =>
    match lib elem with
    | some _info =>
      match db.pyBuilder elemlib with
      | some builderLib =>
        match builderLib elemlib with
        | some fact => some fact
        | none => none
      | none => none
    | none => none
  | none => none

/-- Outcome of isPortNameValid: a Bool result, out.fatal, a null
pointer dereference in the not found path, or an out of bounds read
inside checkPort. -/
inductive PortNameResult where
  | ok (b : Bool)
  | fatal
  | crash
  | undef
deriving DecidableEq

/-- Embeds the scan of factory.cc lines 150 to 154: return true at the
first declared pattern accepting the candidate, false when none does.
An out of bounds read inside checkPort propagates as none. -/
def scanPorts : List (List Char) → List Char → Option Bool
  | [], _ => some false
  | p :: ps, y =>
    match checkPort p y with
    | none => none
    | some true => some true
    | some false => scanPorts ps y

/-- Embeds Factory isPortNameValid (factory.cc lines 101 to 155).  The
Component branch looks the element up by its name (line 117); the
SubComponent branch looks it up under the library name elemlib (line
124).  When no port list was found, the not found path of lines 140 to
147 iterates the map of the Component library pointer, which is null
whenever the Component library lookup failed: that is the crash case. -/
def isPortNameValid (db : EliDB) (ty port : String) : PortNameResult :=
  let elemlib := (parseLoadNameS ty).1.1
  let elem := (parseLoadNameS ty).1.2
  let portNames : Option (List String) :=
    match db.compInfo elemlib with
    | some lib =>
      match lib elem with
      | some compInfo => some compInfo.portNames
      | none => none
    | none =>
      match db.subInfo elemlib with
      | some lib2 =>
        match lib2 elemlib with
        | some subcompInfo => some subcompInfo.portNames
        | none => none
      | none => none
  match portNames with
  | some ps =>
    match scanPorts (ps.map String.data) port.data with
    | some b => PortNameResult.ok b
    | none => PortNameResult.undef
  | none =>
    match db.compInfo elemlib with
    | some _ => PortNameResult.fatal
    | none => PortNameResult.crash

/-- Embeds the statistic scan of factory.cc lines 336 to 340: the
enable level of the first record whose name equals the query, none when
no record matches. -/
def findStatLevel : List StatInfo → String → Option Nat
  | [], _ => none
  | s :: rest, statName =>
    if statName = s.name then some s.enableLevel else findStatLevel rest statName

/-- Embeds Factory GetComponentInfoStatisticEnableLevel (factory.cc
lines 314 to 361).  An empty type falls back to the ambient
loadingComponentType (lines 317 to 320).  When the Component info
database has the library, the SubComponent database is never consulted
and the branch returns zero for any miss below the library (line 342);
only when both databases lack the library does line 359 fatal. -/
def GetComponentInfoStatisticEnableLevel (db : EliDB) (loadingComponentType : String)
    (ty statisticName : String) : CreateResult Nat :=
  let compTypeToLoad := if ty = "" then loadingComponentType else ty
  let elemlib := (parseLoadNameS compTypeToLoad).1.1
  let elem := (parseLoadNameS compTypeToLoad).1.2
  match db.compInfo elemlib with
  | some compLib =>
    (match compLib elem with
     | some info =>
       match findStatLevel info.validStats statisticName with
       | some lvl => CreateResult.ok lvl
       | none => CreateResult.ok 0
     | none => CreateResult.ok 0)
  | none =>
    match db.subInfo elemlib with
    | some subLib =>
      (match subLib elem with
       | some info =>
         match findStatLevel info.validStats statisticName with
         | some lvl => CreateResult.ok lvl
         | none => CreateResult.ok 0
       | none => CreateResult.ok 0)
    | none => CreateResult.fatal

/-- State of the library loading machinery: the Factory member
loaded_libraries, the external ELI LoadedLibraries registry contents,
and a count of calls made to the external loader. -/
structure LibState where
  loaded : List String
  registry : List String
  loaderCalls : Nat
deriving DecidableEq

/-- A loader behaviour: given the requested name, the showErrors flag
and the registry contents before the call, the registry contents after
the call (libraries register themselves while being loaded). -/
def Loader : Type := String → Bool → List String → List String

/-- Embeds Factory loadLibrary (factory.cc lines 646 to 657): invoke
the external loader unconditionally, then verify that the ELI registry
reports the name; only then record the name in loaded_libraries and
return true. -/
def loadLibrary (ld : Loader) (st : LibState) (name : String) (showErrors : Bool) :
    Bool × LibState :=
  let reg := ld name showErrors st.registry
  if name ∈ reg then
    (true, ⟨st.loaded.insert name, reg, st.loaderCalls + 1⟩)
  else
    (false, ⟨st.loaded, reg, st.loaderCalls + 1⟩)

/-- Embeds Factory findLibrary (factory.cc lines 609 to 617):
membership in loaded_libraries short circuits, otherwise delegate to
loadLibrary. -/
def findLibrary (ld : Loader) (st : LibState) (name : String) (showErrors : Bool) :
    Bool × LibState :=
  if name ∈ st.loaded then (true, st)
  else loadLibrary ld st name showErrors

/-- Embeds Factory hasLibrary (factory.cc lines 577 to 580). -/
def hasLibrary (ld : Loader) (st : LibState) (name : String) : Bool × LibState :=
  findLibrary ld st name false

/-- Embeds Factory requireLibrary (factory.cc lines 583 to 587): no op
for the reserved built in library, otherwise a load whose Boolean
result is dropped. -/
def requireLibrary (ld : Loader) (st : LibState) (name : String) : LibState :=
  if name = "sst" then st else (findLibrary ld st name true).2

/-- The four creation entry points that push and pop allowed parameter
keys (factory.cc lines 185 to 187, 422 to 424, 457 to 459, 491 to 493). -/
inductive Kind where
  | component
  | module
  | moduleWithComponent
  | subcomponent
deriving DecidableEq

/-- The resolution chain a creation entry point of the given kind runs
before pushing allowed keys: all four lookups must succeed, and the
pushed set is the paramNames of the resolved info (getParamNames).  For
modules the empty type check of factory.cc line 401 comes first. -/
def resolveParamNames (db : EliDB) (k : Kind) (ty : String) : Option (List String) :=
  let elemlib := (parseLoadNameS ty).1.1
  let elem := (parseLoadNameS ty).1.2
  match k with
  | Kind.component =>
    match db.compInfo elemlib with
    | some lib =>
      match lib elem with
      | some info =>
        match db.compBuilder elemlib with
        | some bl =>
          match bl elem with
          | some _ => some info.paramNames
          | none => none
        | none => none
      | none => none
    | none => none
  | Kind.module =>
    if ty = "" then none
    else
      match db.modInfo elemlib with
      | some lib =>
        match lib elem with
        | some info =>
          match db.modBuilder elemlib with
          | some bl =>
            match bl elem with
            | some _ => some info.paramNames
            | none => none
          | none => none
        | none => none
      | none => none
  | Kind.moduleWithComponent =>
    match db.modInfo elemlib with
    | some lib =>
      match lib elem with
      | some info =>
        match db.modBuilderComp elemlib with
        | some bl =>
          match bl elem with
          | some _ => some info.paramNames
          | none => none
        | none => none
      | none => none
    | none => none
  | Kind.subcomponent =>
    match db.subInfo elemlib with
    | some lib =>
      match lib elem with
      | some info =>
        match db.subBuilder elemlib with
        | some bl =>
          match bl elem with
          | some _ => some info.paramNames
          | none => none
        | none => none
      | none => none
    | none => none

/-- A construction call as seen by the parameter container: its kind,
its type string, and the nested constructions its builder performs
while re entered (a builder commonly re enters the Factory on the same
thread). -/
inductive CallSpec where
  | mk (k : Kind) (ty : String) (children : List CallSpec)

/-- Modelled from the spec: the parameter container contract
(pushAllowedKeys, popAllowedKeys, declared in params.h, which is not
part of the sources here) is a scoped stack of allowed key sets on one
container, pushed before a builder runs and popped after.  The stack is
a list of key sets, pushAllowedKeys is cons and popAllowedKeys is tail. -/
abbrev ParamStack : Type := List (List String)

/-- Runs a sequence of construction calls against a parameter container
stack, fuel bounded in nesting depth.  Each call mirrors the entry
point body: resolve, pushAllowedKeys the declared names, run the
builder (the nested child calls), popAllowedKeys, return (factory.cc
lines 185 to 189 and the parallel sites).  A resolution miss is
out.fatal, so nothing later runs: the result is none, as it is when the
fuel is exhausted. -/
def runCalls (db : EliDB) : Nat → List CallSpec → ParamStack → Option ParamStack
  | _, [], s => some s
  | 0, _ :: _, _ => none
  | Nat.succ n, CallSpec.mk k ty children :: rest, s =>
    match resolveParamNames db k ty with
    | none => none
    | some pn =>
      match runCalls db n children (pn :: s) with
      | none => none
      | some s2 => runCalls db n rest s2.tail

/-- The database with every library absent, the base of the concrete
registries below. -/
def emptyDB : EliDB :=
  ⟨fun _ => none, fun _ => none, fun _ => none, fun _ => none, fun _ => none,
   fun _ => none, fun _ => none, fun _ => none, fun _ => none, fun _ => none,
   fun _ => none⟩

/-- A registry whose python module library a is present but declares no
element: the descriptor lookup misses. -/
def dbPy : EliDB :=
  { emptyDB with pyInfo := fun l => if l = "a" then some (fun _ => none) else none }

/-- The descriptor of a sub component declaring one port pattern. -/
def info3 : ElemInfo := ⟨[], ["port%d"], [], [], []⟩

/-- The element table of the sub component library lib: element elem
only. -/
def subT3 : String → Option ElemInfo := fun e => if e = "elem" then some info3 else none

/-- A registry where lib is a sub component library declaring elem, and
no component library named lib exists. -/
def db3 : EliDB :=
  { emptyDB with subInfo := fun l => if l = "lib" then some subT3 else none }

/-- A descriptor declaring one statistic with enable level seven. -/
def info9 : ElemInfo := ⟨[], [], ["s"], [⟨"s", 7, "watts"⟩], []⟩

/-- An element table declaring the element el with info9. -/
def subT9 : String → Option ElemInfo := fun e => if e = "el" then some info9 else none

/-- A registry where the library lib has a component info table that
lacks el, while the sub component table declares el with a level seven
statistic. -/
def db9 : EliDB :=
  { emptyDB with
    compInfo := fun l => if l = "lib" then some (fun _ => none) else none,
    subInfo := fun l => if l = "lib" then some subT9 else none }

/-- A registry where the library lib appears only in the sub component
info database. -/
def db9b : EliDB :=
  { emptyDB with subInfo := fun l => if l = "lib" then some subT9 else none }

/-- A descriptor declaring one parameter name, for the re entrant
construction witness. -/
def infoW1 : ElemInfo := ⟨["p1"], [], [], [], []⟩

/-- A second descriptor for the construction witness. -/
def infoW2 : ElemInfo := ⟨["p2"], [], [], [], []⟩

/-- A third descriptor for the construction witness. -/
def infoW3 : ElemInfo := ⟨["p3"], [], [], [], []⟩

/-- A registry where library a declares component b, sub component c
and module m, each with a builder. -/
def dbW : EliDB :=
  { emptyDB with
    compInfo := fun l => if l = "a" then some (fun e => if e = "b" then some infoW1 else none) else none,
    compBuilder := fun l => if l = "a" then some (fun e => if e = "b" then some 1 else none) else none,
    subInfo := fun l => if l = "a" then some (fun e => if e = "c" then some infoW2 else none) else none,
    subBuilder := fun l => if l = "a" then some (fun e => if e = "c" then some 2 else none) else none,
    modInfo := fun l => if l = "a" then some (fun e => if e = "m" then some infoW3 else none) else none,
    modBuilder := fun l => if l = "a" then some (fun e => if e = "m" then some 3 else none) else none }

/-- A component construction whose builder re enters the Factory to
build a sub component and then a module. -/
def specW : CallSpec :=
  CallSpec.mk Kind.component "a.b"
    [CallSpec.mk Kind.subcomponent "a.c" [], CallSpec.mk Kind.module "a.m" []]

/-- A loader that registers the requested library. -/
def ldReg : Loader := fun n _ reg => n :: reg

/-- A state in which the library x is already loaded and registered. -/
def stLoaded : LibState := ⟨["x"], ["x"], 0⟩

/-- The initial state of the Factory after its constructor: only the
built in library is loaded (factory.cc line 59). -/
def stInit : LibState := ⟨["sst"], [], 0⟩

/-- The state after loading library a from stInit with ldReg. -/
def stAfter : LibState := ⟨["a", "sst"], ["a"], 1⟩


/-- A run of digit characters is eaten whole. -/
lemma eatDigits_of_all (ds : List Char) (h : ∀ c ∈ ds, c.isDigit) : eatDigits ds = [] := by
  induction ds with
  | nil => rfl
  | cons c rest ih =>
    have hc : c.isDigit := h c (by simp)
    simp only [eatDigits, hc, if_true]
    exact ih fun d hd => h d (by simp [hd])

/-- A list without a dot does not split. -/
lemma splitAtDot_of_not_mem (w : List Char) (h : '.' ∉ w) : splitAtDot w = none := by
  induction w with
  | nil => rfl
  | cons c rest ih =>
    have hc : c ≠ '.' := fun e => h (by simp [e])
    have ih2 := ih fun hm => h (List.mem_cons_of_mem _ hm)
    simp [splitAtDot, hc, ih2]

/-- splitAtDot splits at the first dot. -/
lemma splitAtDot_append (a b : List Char) (h : '.' ∉ a) :
    splitAtDot (a ++ '.' :: b) = some (a, b) := by
  induction a with
  | nil => simp [splitAtDot]
  | cons c rest ih =>
    have hc : c ≠ '.' := fun e => h (by simp [e])
    have ih2 := ih fun hm => h (List.mem_cons_of_mem _ hm)
    simp [splitAtDot, hc, ih2]

/-- A literal, non marker, matching character advances both cursors of
the checkPort loop in lock step. -/
lemma checkPortLoopF_lit (n : Nat) (c : Char) (x y : List Char)
    (hm : isMarkerStart (c :: x) = false) (hx : x ≠ []) (hy : y ≠ []) :
    checkPortLoopF (Nat.succ n) (c :: x) (c :: y) = checkPortLoopF n x y := by
  rw [checkPortLoopF]
  simp [pstep, hm, headC, hx, hy]

/-- loaded_libraries only grows across loadLibrary. -/
lemma loadLibrary_mono (ld : Loader) (st : LibState) (n m : String) (e : Bool)
    (h : m ∈ st.loaded) : m ∈ (loadLibrary ld st n e).2.loaded := by
  rw [loadLibrary]
  by_cases hm : n ∈ ld n e st.registry
  · rw [if_pos hm]
    simp only [List.mem_insert_iff]
    exact Or.inr h
  · rw [if_neg hm]
    exact h

/-- loaded_libraries only grows across findLibrary. -/
lemma findLibrary_mono (ld : Loader) (st : LibState) (n m : String) (e : Bool)
    (h : m ∈ st.loaded) : m ∈ (findLibrary ld st n e).2.loaded := by
  rw [findLibrary]
  by_cases hl : n ∈ st.loaded
  · rw [if_pos hl]; exact h
  · rw [if_neg hl]; exact loadLibrary_mono ld st n m e h

/-- loaded_libraries only grows across requireLibrary. -/
lemma requireLibrary_mono (ld : Loader) (st : LibState) (n m : String)
    (h : m ∈ st.loaded) : m ∈ (requireLibrary ld st n).loaded := by
  rw [requireLibrary]
  by_cases hs : n = "sst"
  · rw [if_pos hs]; exact h
  · rw [if_neg hs]; exact findLibrary_mono ld st n m true h

/-- C6: parseLoadName splits at the first separator, parse of a.b is
(a, b); an input without separator yields library equal to element, so
parse of a is (a, a); the empty input emits the non fatal advisory and
returns a pair of empty strings without terminating. -/
theorem C6_parse_load_name :
    parseLoadNameS "a.b" = (("a", "b"), false) ∧
    parseLoadNameS "a" = (("a", "a"), false) ∧
    parseLoadNameS "" = (("", ""), true) ∧
    (∀ a b : List Char, '.' ∉ a → parseLoadName (a ++ '.' :: b) = ((a, b), false)) ∧
    (∀ w : List Char, '.' ∉ w → w ≠ [] → parseLoadName w = ((w, w), false)) := by
  refine ⟨by decide, by decide, by decide, ?_, ?_⟩
  · intro a b h
    rw [parseLoadName, splitAtDot_append a b h]
  · intro w h hne
    rw [parseLoadName, splitAtDot_of_not_mem w h]
    cases w with
    | nil => exact absurd rfl hne
    | cons c rest => rfl

/-- C6 witness: the first split theorem applied to the concrete input
x.y with library part x. -/
theorem C6_parse_load_name_witness :
    ('.' ∉ ['x']) ∧ parseLoadName (['x'] ++ '.' :: ['y']) = ((['x'], ['y']), false) :=
  ⟨by decide, C6_parse_load_name.2.2.2.1 ['x'] ['y'] (by decide)⟩

/-- C7: the matcher accepts a digit run at a bare or parenthesized
digit marker, requires everything else to match literally with both
cursors reaching the end together, and the single character star
pattern accepts every candidate including the empty one. -/
theorem C7_port_pattern_matcher :
    (∀ y : List Char, checkPort ['*'] y = some true) ∧
    (∀ ds : List Char, ds ≠ [] → (∀ c ∈ ds, c.isDigit) →
      checkPort "port%d".data ("port".data ++ ds) = some true) ∧
    checkPortS "port%d" "port0" = some true ∧
    checkPortS "port%d" "portX" = some false ∧
    checkPortS "port%(bank)d" "port42" = some true := by
  refine ⟨fun y => rfl, ?_, by decide, by decide, by decide⟩
  intro ds hne hdig
  show checkPortLoopF (Nat.succ (Nat.succ (Nat.succ (Nat.succ (Nat.succ ds.length)))))
      ['p', 'o', 'r', 't', '%', 'd'] ('p' :: 'o' :: 'r' :: 't' :: ds) = some true
  rw [checkPortLoopF_lit _ 'p' _ _ (by decide) (by decide) (by simp),
    checkPortLoopF_lit _ 'o' _ _ (by decide) (by decide) (by simp),
    checkPortLoopF_lit _ 'r' _ _ (by decide) (by decide) (by simp),
    checkPortLoopF_lit _ 't' _ _ (by decide) (by decide) hne]
  rw [checkPortLoopF]
  simp [pstep, isMarkerStart, eatMarker, headC, eatDigits_of_all ds hdig]

/-- C7 witness: the digit run statement applied at the concrete digit
run 7. -/
theorem C7_port_pattern_witness :
    checkPort "port%d".data ("port".data ++ ['7']) = some true :=
  C7_port_pattern_matcher.2.1 ['7'] (by decide) (by decide)

/-- C8: on a pattern whose parenthesized marker never closes, checkPort
advances the pattern cursor one past the NUL terminator and reads out
of bounds (result none in this model), for every candidate; the claim
that it returns false without reading past the end of either string is
false on the code.  A marker closed by a parenthesis but not terminated
by the letter d is rejected in bounds, for every candidate. -/
theorem C8_malformed_marker_oob :
    (∀ y : List Char, checkPort "%(abc".data y = none) ∧
    (∀ y : List Char, checkPort "%(ab)x".data y = some false) ∧
    checkPortS "%(abc" "x" = none := by
  refine ⟨?_, ?_, by decide⟩
  · intro y
    show checkPortLoopF (Nat.succ y.length) ['%', '(', 'a', 'b', 'c'] y = none
    rw [checkPortLoopF]
    simp [pstep, isMarkerStart, eatMarker, skipToParen, headC]
  · intro y
    show checkPortLoopF (Nat.succ y.length) ['%', '(', 'a', 'b', ')', 'x'] y = some false
    rw [checkPortLoopF]
    simp [pstep, isMarkerStart, eatMarker, skipToParen, headC]

/-- C2: for any nesting depth of re entrant construction, a sequence of
construction calls that returns leaves the allowed key scope stack of
the parameter container exactly as it was: every pushAllowedKeys is
matched by exactly one popAllowedKeys in LIFO order. -/
theorem C2_param_scope_balanced :
    ∀ (db : EliDB) (n : Nat) (cs : List CallSpec) (s s2 : ParamStack),
      runCalls db n cs s = some s2 → s2 = s := by
  intro db n
  induction n with
  | zero =>
    intro cs s s2 h
    cases cs with
    | nil =>
      simp only [runCalls, Option.some.injEq] at h
      exact h.symm
    | cons c rest => simp [runCalls] at h
  | succ n ih =>
    intro cs s s2 h
    cases cs with
    | nil =>
      simp only [runCalls, Option.some.injEq] at h
      exact h.symm
    | cons c rest =>
      obtain ⟨k, ty, children⟩ := c
      rw [runCalls] at h
      split at h
      · simp at h
      · next pn h1 =>
        split at h
        · simp at h
        · next sc h2 =>
          have hsc := ih children (pn :: s) sc h2
          subst hsc
          exact ih rest s s2 h

/-- C2 witness: a component whose builder re enters the Factory for a
sub component and a module returns the stack unchanged. -/
theorem C2_param_scope_witness :
    runCalls dbW 3 [specW] [["root"]] = some [["root"]] ∧
    ([["root"]] : ParamStack) = [["root"]] :=
  ⟨by decide, C2_param_scope_balanced dbW 3 [specW] [["root"]] [["root"]] (by decide)⟩

/-- C1 counterexample: the claim says every resolution miss of every
creation entry point, getPythonModule included, is fatal and never
returns.  In the registry dbPy the python module library a is present
and the descriptor for element b is missing, yet getPythonModule
returns a null pointer to its caller instead of terminating. -/
theorem C1_python_miss_counterexample :
    getPythonModule dbPy "a.b" = none ∧ dbPy.pyInfo "a" = some (fun _ => none) :=
  ⟨by decide, rfl⟩

/-- C1 amended: for CreateComponent, CreateModule,
CreateModuleWithComponent, CreateSubComponent and CreatePartitioner,
every call either terminates through out.fatal or resolves the complete
descriptor and builder chain and returns the built instance, so a
resolution miss is fatal and the call never returns a null or partial
instance; getPythonModule instead either returns null or resolves its
complete chain, and never terminates. -/
theorem C1_construction_miss_policy :
    (∀ (db : EliDB) (ty : String),
      CreateComponent db ty = CreateResult.fatal ∨
      ∃ t info bl fact,
        db.compInfo (parseLoadNameS ty).1.1 = some t ∧
        t (parseLoadNameS ty).1.2 = some info ∧
        db.compBuilder (parseLoadNameS ty).1.1 = some bl ∧
        bl (parseLoadNameS ty).1.2 = some fact ∧
        CreateComponent db ty = CreateResult.ok fact) ∧
    (∀ (db : EliDB) (ty : String),
      (CreateModule db ty).1 = CreateResult.fatal ∨
      ∃ t info bl fact,
        db.modInfo (parseLoadNameS ty).1.1 = some t ∧
        t (parseLoadNameS ty).1.2 = some info ∧
        db.modBuilder (parseLoadNameS ty).1.1 = some bl ∧
        bl (parseLoadNameS ty).1.2 = some fact ∧
        (CreateModule db ty).1 = CreateResult.ok fact) ∧
    (∀ (db : EliDB) (ty : String),
      CreateModuleWithComponent db ty = CreateResult.fatal ∨
      ∃ t info bl fact,
        db.modInfo (parseLoadNameS ty).1.1 = some t ∧
        t (parseLoadNameS ty).1.2 = some info ∧
        db.modBuilderComp (parseLoadNameS ty).1.1 = some bl ∧
        bl (parseLoadNameS ty).1.2 = some fact ∧
        CreateModuleWithComponent db ty = CreateResult.ok fact) ∧
    (∀ (db : EliDB) (ty : String),
      CreateSubComponent db ty = CreateResult.fatal ∨
      ∃ t info bl fact,
        db.subInfo (parseLoadNameS ty).1.1 = some t ∧
        t (parseLoadNameS ty).1.2 = some info ∧
        db.subBuilder (parseLoadNameS ty).1.1 = some bl ∧
        bl (parseLoadNameS ty).1.2 = some fact ∧
        CreateSubComponent db ty = CreateResult.ok fact) ∧
    (∀ (db : EliDB) (name : String),
      CreatePartitioner db name = CreateResult.fatal ∨
      ∃ t info bl fact,
        db.partInfo (parseLoadNameS name).1.1 = some t ∧
        t (parseLoadNameS name).1.2 = some info ∧
        db.partBuilder (parseLoadNameS name).1.1 = some bl ∧
        bl (parseLoadNameS name).1.2 = some fact ∧
        CreatePartitioner db name = CreateResult.ok fact) ∧
    (∀ (db : EliDB) (name : String),
      getPythonModule db name = none ∨
      ∃ t info bl fact,
        db.pyInfo (parseLoadNameS name).1.1 = some t ∧
        t (parseLoadNameS name).1.2 = some info ∧
        db.pyBuilder (parseLoadNameS name).1.1 = some bl ∧
        bl (parseLoadNameS name).1.1 = some fact ∧
        getPythonModule db name = some fact) := by
  refine ⟨?_, ?_, ?_, ?_, ?_, ?_⟩
  · intro db ty
    cases h1 : db.compInfo (parseLoadNameS ty).1.1 with
    | none => exact Or.inl (by simp [CreateComponent, h1])
    | some t =>
      cases h2 : t (parseLoadNameS ty).1.2 with
      | none => exact Or.inl (by simp [CreateComponent, h1, h2])
      | some info =>
        cases h3 : db.compBuilder (parseLoadNameS ty).1.1 with
        | none => exact Or.inl (by simp [CreateComponent, h1, h2, h3])
        | some bl =>
          cases h4 : bl (parseLoadNameS ty).1.2 with
          | none => exact Or.inl (by simp [CreateComponent, h1, h2, h3, h4])
          | some fact =>
            exact Or.inr ⟨t, info, bl, fact, rfl, h2, rfl, h4,
              by simp [CreateComponent, h1, h2, h3, h4]⟩
  · intro db ty
    by_cases hty : ty = ""
    · exact Or.inl (by simp [CreateModule, hty])
    · cases h1 : db.modInfo (parseLoadNameS ty).1.1 with
      | none => exact Or.inl (by simp [CreateModule, hty, h1])
      | some t =>
        cases h2 : t (parseLoadNameS ty).1.2 with
        | none => exact Or.inl (by simp [CreateModule, hty, h1, h2])
        | some info =>
          cases h3 : db.modBuilder (parseLoadNameS ty).1.1 with
          | none => exact Or.inl (by simp [CreateModule, hty, h1, h2, h3])
          | some bl =>
            cases h4 : bl (parseLoadNameS ty).1.2 with
            | none => exact Or.inl (by simp [CreateModule, hty, h1, h2, h3, h4])
            | some fact =>
              exact Or.inr ⟨t, info, bl, fact, rfl, h2, rfl, h4,
                by simp [CreateModule, hty, h1, h2, h3, h4]⟩
  · intro db ty
    cases h1 : db.modInfo (parseLoadNameS ty).1.1 with
    | none => exact Or.inl (by simp [CreateModuleWithComponent, h1])
    | some t =>
      cases h2 : t (parseLoadNameS ty).1.2 with
      | none => exact Or.inl (by simp [CreateModuleWithComponent, h1, h2])
      | some info =>
        cases h3 : db.modBuilderComp (parseLoadNameS ty).1.1 with
        | none => exact Or.inl (by simp [CreateModuleWithComponent, h1, h2, h3])
        | some bl =>
          cases h4 : bl (parseLoadNameS ty).1.2 with
          | none => exact Or.inl (by simp [CreateModuleWithComponent, h1, h2, h3, h4])
          | some fact =>
            exact Or.inr ⟨t, info, bl, fact, rfl, h2, rfl, h4,
              by simp [CreateModuleWithComponent, h1, h2, h3, h4]⟩
  · intro db ty
    cases h1 : db.subInfo (parseLoadNameS ty).1.1 with
    | none => exact Or.inl (by simp [CreateSubComponent, h1])
    | some t =>
      cases h2 : t (parseLoadNameS ty).1.2 with
      | none => exact Or.inl (by simp [CreateSubComponent, h1, h2])
      | some info =>
        cases h3 : db.subBuilder (parseLoadNameS ty).1.1 with
        | none => exact Or.inl (by simp [CreateSubComponent, h1, h2, h3])
        | some bl =>
          cases h4 : bl (parseLoadNameS ty).1.2 with
          | none => exact Or.inl (by simp [CreateSubComponent, h1, h2, h3, h4])
          | some fact =>
            exact Or.inr ⟨t, info, bl, fact, rfl, h2, rfl, h4,
              by simp [CreateSubComponent, h1, h2, h3, h4]⟩
  · intro db name
    cases h1 : db.partInfo (parseLoadNameS name).1.1 with
    | none => exact Or.inl (by simp [CreatePartitioner, h1])
    | some t =>
      cases h2 : t (parseLoadNameS name).1.2 with
      | none => exact Or.inl (by simp [CreatePartitioner, h1, h2])
      | some info =>
        cases h3 : db.partBuilder (parseLoadNameS name).1.1 with
        | none => exact Or.inl (by simp [CreatePartitioner, h1, h2, h3])
        | some bl =>
          cases h4 : bl (parseLoadNameS name).1.2 with
          | none => exact Or.inl (by simp [CreatePartitioner, h1, h2, h3, h4])
          | some fact =>
            exact Or.inr ⟨t, info, bl, fact, rfl, h2, rfl, h4,
              by simp [CreatePartitioner, h1, h2, h3, h4]⟩
  · intro db name
    cases h1 : db.pyInfo (parseLoadNameS name).1.1 with
    | none => exact Or.inl (by simp [getPythonModule, h1])
    | some t =>
      cases h2 : t (parseLoadNameS name).1.2 with
      | none => exact Or.inl (by simp [getPythonModule, h1, h2])
      | some info =>
        cases h3 : db.pyBuilder (parseLoadNameS name).1.1 with
        | none => exact Or.inl (by simp [getPythonModule, h1, h2, h3])
        | some bl =>
          cases h4 : bl (parseLoadNameS name).1.1 with
          | none => exact Or.inl (by simp [getPythonModule, h1, h2, h3, h4])
          | some fact =>
            exact Or.inr ⟨t, info, bl, fact, rfl, h2, rfl, h4,
              by simp [getPythonModule, h1, h2, h3, h4]⟩

/-- C3: the claim says isPortNameValid on a sub component type lib.elem
consults the patterns declared by elem in library lib and accepts when
one matches.  In db3 the sub component elem of library lib declares the
pattern that accepts port0, yet the code looks the info up under the
library name (factory.cc line 124), finds nothing, and reaches the not
found path, which dereferences the null Component library pointer. -/
theorem C3_subcomponent_port_lookup_bug :
    isPortNameValid db3 "lib.elem" "port0" = PortNameResult.crash ∧
    db3.subInfo "lib" = some subT3 ∧
    subT3 "elem" = some info3 ∧
    scanPorts (info3.portNames.map String.data) "port0".data = some true :=
  ⟨by decide, rfl, by decide, by decide⟩

/-- C4 counterexample: the claim says loadLibrary short circuits when
the library is already loaded.  In state stLoaded the library x is a
member of loaded_libraries, yet loadLibrary invokes the external loader
once more. -/
theorem C4_no_short_circuit_counterexample :
    "x" ∈ stLoaded.loaded ∧
    (loadLibrary ldReg stLoaded "x" true).2.loaderCalls = stLoaded.loaderCalls + 1 := by
  constructor
  · decide
  · rfl

/-- C4 amended: the short circuit on an already loaded library lives in
findLibrary, the caller of loadLibrary; loadLibrary itself always
delegates to the external loader, verifies success by registry
membership rather than the loader result, records the name in
loaded_libraries exactly when verification succeeds, and returns true
exactly in that case. -/
theorem C4_load_library_contract :
    (∀ (ld : Loader) (st : LibState) (n : String) (e : Bool),
      n ∈ st.loaded → findLibrary ld st n e = (true, st)) ∧
    (∀ (ld : Loader) (st : LibState) (n : String) (e : Bool),
      (loadLibrary ld st n e).2.loaderCalls = st.loaderCalls + 1 ∧
      ((loadLibrary ld st n e).1 = true ↔ n ∈ ld n e st.registry) ∧
      (loadLibrary ld st n e).2.registry = ld n e st.registry ∧
      (n ∈ (loadLibrary ld st n e).2.loaded ↔
        n ∈ st.loaded ∨ (loadLibrary ld st n e).1 = true)) := by
  constructor
  · intro ld st n e h
    rw [findLibrary, if_pos h]
  · intro ld st n e
    by_cases hm : n ∈ ld n e st.registry
    · simp [loadLibrary, hm, List.mem_insert_iff]
    · simp [loadLibrary, hm]

/-- C4 witness: the findLibrary short circuit applied to the concrete
already loaded state. -/
theorem C4_load_library_witness :
    "x" ∈ stLoaded.loaded ∧ findLibrary ldReg stLoaded "x" true = (true, stLoaded) :=
  ⟨by decide, C4_load_library_contract.1 ldReg stLoaded "x" true (by decide)⟩

/-- C5: a first successful findLibrary performs the underlying loader
call exactly once; a second findLibrary or hasLibrary on the same name
returns true without invoking the loader again and without changing the
state; and loaded_libraries grows monotonically across findLibrary,
loadLibrary and requireLibrary. -/
theorem C5_load_once_monotonic :
    (∀ (ld : Loader) (st : LibState) (n : String) (e1 e2 : Bool) (st1 : LibState),
      n ∉ st.loaded → findLibrary ld st n e1 = (true, st1) →
      st1.loaderCalls = st.loaderCalls + 1 ∧
      findLibrary ld st1 n e2 = (true, st1) ∧
      hasLibrary ld st1 n = (true, st1)) ∧
    (∀ (ld : Loader) (st : LibState) (n m : String) (e : Bool),
      m ∈ st.loaded → m ∈ (findLibrary ld st n e).2.loaded) ∧
    (∀ (ld : Loader) (st : LibState) (n m : String) (e : Bool),
      m ∈ st.loaded → m ∈ (loadLibrary ld st n e).2.loaded) ∧
    (∀ (ld : Loader) (st : LibState) (n m : String),
      m ∈ st.loaded → m ∈ (requireLibrary ld st n).loaded) := by
  refine ⟨?_, findLibrary_mono, loadLibrary_mono, requireLibrary_mono⟩
  intro ld st n e1 e2 st1 hnot h
  rw [findLibrary, if_neg hnot, loadLibrary] at h
  by_cases hm : n ∈ ld n e1 st.registry
  · rw [if_pos hm] at h
    have hst : st1 = ⟨st.loaded.insert n, ld n e1 st.registry, st.loaderCalls + 1⟩ :=
      (congrArg Prod.snd h).symm
    subst hst
    have hmem : n ∈ st.loaded.insert n := by simp [List.mem_insert_iff]
    exact ⟨rfl, by rw [findLibrary, if_pos hmem], by rw [hasLibrary, findLibrary, if_pos hmem]⟩
  · rw [if_neg hm] at h
    simp at h

/-- C5 witness: loading library a from the initial state succeeds with
one loader call, and the repeated lookup returns true with the state
unchanged. -/
theorem C5_load_once_witness :
    ("a" ∉ stInit.loaded) ∧
    findLibrary ldReg stInit "a" true = (true, stAfter) ∧
    findLibrary ldReg stAfter "a" false = (true, stAfter) :=
  ⟨by decide, by decide,
    (C5_load_once_monotonic.1 ldReg stInit "a" true false stAfter (by decide) (by decide)).2.1⟩

/-- C9 counterexample: the claim says the declared enable level of a
registered sub component statistic is returned.  In db9 the library lib
has a component info table lacking el while the sub component table
declares the statistic s on el with level seven; the query returns zero
instead of the declared seven. -/
theorem C9_stat_enable_level_counterexample :
    GetComponentInfoStatisticEnableLevel db9 "" "lib.el" "s" = CreateResult.ok 0 ∧
    subT9 "el" = some info9 ∧
    findStatLevel info9.validStats "s" = some 7 :=
  ⟨by decide, by decide, by decide⟩

/-- C9 amended: when the component info lookup chain resolves the type,
the declared enable level of the first matching statistic is returned
and an undeclared name yields zero without a fatal diagnostic; when the
library has a component info table lacking the element, the result is
zero and the sub component tables are never consulted; only when the
library is in neither database is the call fatal.  The sub component
branch behaves like the component branch when the library has no
component info table. -/
theorem C9_stat_enable_level :
    (∀ (db : EliDB) (ldg ty stat : String) (t : String → Option ElemInfo) (info : ElemInfo),
      ty ≠ "" →
      db.compInfo (parseLoadNameS ty).1.1 = some t →
      t (parseLoadNameS ty).1.2 = some info →
      (∀ lvl, findStatLevel info.validStats stat = some lvl →
        GetComponentInfoStatisticEnableLevel db ldg ty stat = CreateResult.ok lvl) ∧
      (findStatLevel info.validStats stat = none →
        GetComponentInfoStatisticEnableLevel db ldg ty stat = CreateResult.ok 0)) ∧
    (∀ (db : EliDB) (ldg ty stat : String) (t : String → Option ElemInfo),
      ty ≠ "" →
      db.compInfo (parseLoadNameS ty).1.1 = some t →
      t (parseLoadNameS ty).1.2 = none →
      GetComponentInfoStatisticEnableLevel db ldg ty stat = CreateResult.ok 0) ∧
    (∀ (db : EliDB) (ldg ty stat : String) (t : String → Option ElemInfo) (info : ElemInfo),
      ty ≠ "" →
      db.compInfo (parseLoadNameS ty).1.1 = none →
      db.subInfo (parseLoadNameS ty).1.1 = some t →
      t (parseLoadNameS ty).1.2 = some info →
      (∀ lvl, findStatLevel info.validStats stat = some lvl →
        GetComponentInfoStatisticEnableLevel db ldg ty stat = CreateResult.ok lvl) ∧
      (findStatLevel info.validStats stat = none →
        GetComponentInfoStatisticEnableLevel db ldg ty stat = CreateResult.ok 0)) := by
  refine ⟨?_, ?_, ?_⟩
  · intro db ldg ty stat t info hne h1 h2
    constructor
    · intro lvl hl
      simp [GetComponentInfoStatisticEnableLevel, hne, h1, h2, hl]
    · intro hl
      simp [GetComponentInfoStatisticEnableLevel, hne, h1, h2, hl]
  · intro db ldg ty stat t hne h1 h2
    simp [GetComponentInfoStatisticEnableLevel, hne, h1, h2]
  · intro db ldg ty stat t info hne h1 h2 h3
    constructor
    · intro lvl hl
      simp [GetComponentInfoStatisticEnableLevel, hne, h1, h2, h3, hl]
    · intro hl
      simp [GetComponentInfoStatisticEnableLevel, hne, h1, h2, h3, hl]

/-- C9 witness: when the library lives only in the sub component
database, the declared level seven is returned. -/
theorem C9_stat_enable_level_witness :
    GetComponentInfoStatisticEnableLevel db9b "" "lib.el" "s" = CreateResult.ok 7 :=
  (C9_stat_enable_level.2.2 db9b "" "lib.el" "s" subT9 info9 (by decide) rfl rfl rfl).1
    7 (by decide)

/-- C10: CreateModule with an empty type string is fatal before the
name is parsed, the advisory of the parser is never emitted and no
module instance is returned; the parser itself would emit the advisory
on the empty name. -/
theorem C10_empty_module_fatal :
    (∀ db : EliDB, CreateModule db "" = (CreateResult.fatal, false)) ∧
    parseLoadNameS "" = (("", ""), true) :=
  ⟨fun _ => rfl, by decide⟩

end SST
